import Mathlib

/-! # RevEng_PAJ7620 gesture sensor driver

A shallow embedding of `src/src/RevEng_PAJ7620.cpp`.

* The header `RevEng_PAJ7620.h` is not part of the sources, so the constants,
  the flag values and the configuration table it declares are the fields of
  `Header`; every function takes the header as its first argument.
* The Arduino board (the `TwoWire` bus object, `delay`, `delayMicroseconds`)
  is a deterministic machine over an arbitrary state type `σ`, given by
  `Board σ`.
* The driver object is `Driver σ`: the board state, the two timing fields of
  the class, and a ghost trace that records every register access and every
  delay in the order the code performs them.
* `uint8_t` values are naturals reduced modulo 256 (`u8`), `uint16_t` values
  naturals reduced modulo 65536 (`u16`).
-/

namespace PAJ7620

/-! ## Types of the header -/

/-- Register bank selector `Bank_e`. -/
inductive Bank_e
  | BANK0
  | BANK1
  deriving DecidableEq, Repr

/-- Result type `Gesture` of the decoder. -/
inductive Gesture
  | GES_NONE
  | GES_UP
  | GES_DOWN
  | GES_LEFT
  | GES_RIGHT
  | GES_FORWARD
  | GES_BACKWARD
  | GES_CLOCKWISE
  | GES_ANTICLOCKWISE
  | GES_WAVE
  deriving DecidableEq, Repr

/-- Constants, flag values and the configuration table declared by the header
`RevEng_PAJ7620.h`. The two part identifiers are not fields: see
`PAJ7620_PART_ID_LSB` and `PAJ7620_PART_ID_MSB`. -/
structure Header where
  PAJ7620_I2C_BUS_ADDR : Nat
  PAJ7620_REGISTER_BANK_SEL : Nat
  PAJ7620_BANK0 : Nat
  PAJ7620_BANK1 : Nat
  PAJ7620_ADDR_PART_ID_0 : Nat
  PAJ7620_ADDR_PART_ID_1 : Nat
  PAJ7620_ADDR_GES_RESULT_0 : Nat
  PAJ7620_ADDR_GES_RESULT_1 : Nat
  PAJ7620_ADDR_CURSOR_X_LOW : Nat
  PAJ7620_ADDR_CURSOR_X_HIGH : Nat
  PAJ7620_ADDR_CURSOR_Y_LOW : Nat
  PAJ7620_ADDR_CURSOR_Y_HIGH : Nat
  PAJ7620_ADDR_WAVE_COUNT : Nat
  PAJ7620_ADDR_OPERATION_ENABLE : Nat
  PAJ7620_ENABLE : Nat
  PAJ7620_DISABLE : Nat
  GES_RIGHT_FLAG : Nat
  GES_LEFT_FLAG : Nat
  GES_UP_FLAG : Nat
  GES_DOWN_FLAG : Nat
  GES_FORWARD_FLAG : Nat
  GES_BACKWARD_FLAG : Nat
  GES_CLOCKWISE_FLAG : Nat
  GES_ANTI_CLOCKWISE_FLAG : Nat
  GES_WAVE_FLAG : Nat
  initRegisterArray : List Nat

/-- Modelled from the spec: the header constant `PAJ7620_PART_ID_LSB` is not in
the sources; the spec (section 8) and the comment in `isPAJ7620UDevice`
("Should read 0x20") give its value. -/
def PAJ7620_PART_ID_LSB : Nat := 0x20

/-- Modelled from the spec: the header constant `PAJ7620_PART_ID_MSB` is not in
the sources; the spec (section 8) and the comment in `isPAJ7620UDevice`
("Should read 0x76") give its value. -/
def PAJ7620_PART_ID_MSB : Nat := 0x76

/-- Number of entries of the configuration table (`INIT_REG_ARRAY_SIZE`). -/
def INIT_REG_ARRAY_SIZE (c : Header) : Nat := c.initRegisterArray.length

/-! ## Machine integers -/

/-- Conversion to `uint8_t`. -/
def u8 (n : Nat) : Nat := n % 256

/-- Conversion to `uint16_t`. -/
def u16 (n : Nat) : Nat := n % 65536

/-! ## Board and driver state -/

/-- One entry of the ghost trace. -/
inductive BusOp
  | regWrite (addr cmd : Nat)
  | regRead (addr qty : Nat)
  | delay (ms : Nat)
  | delayMicroseconds (us : Nat)
  | wireBegin
  deriving DecidableEq, Repr

/-- The board the driver runs on, as a deterministic machine over `σ`.
`endTransmission h a bytes` is a transmission of `bytes` to bus address `a`
(`beginTransmission`, the `write` calls, `endTransmission`) and yields the
status, which the driver stores in a `uint8_t`; `requestFrom h a qty` yields
the bytes that `available`/`read` then deliver. -/
structure Board (σ : Type) where
  wireBegin : σ → σ
  endTransmission : σ → Nat → List Nat → σ × Nat
  requestFrom : σ → Nat → Nat → σ × List Nat
  delay : σ → Nat → σ
  delayMicroseconds : σ → Nat → σ

/-- The driver object together with the board state and the ghost trace. -/
structure Driver (σ : Type) where
  hw : σ
  trace : List BusOp
  gestureEntryTime : Nat
  gestureExitTime : Nat

variable {σ : Type}

/-- Arduino `delay(ms)`. -/
def delay (b : Board σ) (s : Driver σ) (ms : Nat) : Driver σ :=
  { s with hw := b.delay s.hw ms, trace := s.trace ++ [BusOp.delay ms] }

/-- Arduino `delayMicroseconds(us)`. -/
def delayMicroseconds (b : Board σ) (s : Driver σ) (us : Nat) : Driver σ :=
  { s with hw := b.delayMicroseconds s.hw us, trace := s.trace ++ [BusOp.delayMicroseconds us] }

/-- The call `wireHandle->begin()`. -/
def wireBegin (b : Board σ) (s : Driver σ) : Driver σ :=
  { s with hw := b.wireBegin s.hw, trace := s.trace ++ [BusOp.wireBegin] }

/-- Value of a one-byte variable whose address was passed as `data[]`. -/
def firstByte (buf : List Nat) : Nat := buf.headD 0

/-! ## Register access -/

/-- `writeRegister(addr, cmd)`: one transmission of the two bytes; returns the
status of `endTransmission`. -/
def writeRegister (c : Header) (b : Board σ) (s : Driver σ) (addr cmd : Nat) :
    Driver σ × Nat :=
  let t := b.endTransmission s.hw c.PAJ7620_I2C_BUS_ADDR [u8 addr, u8 cmd]
  let result_code := u8 t.2
  ({ s with hw := t.1, trace := s.trace ++ [BusOp.regWrite (u8 addr) (u8 cmd)] }, result_code)

/-- `readRegister(addr, qty, data)`: transmits the register address; on a
nonzero status returns it and leaves `data` alone; otherwise requests `qty`
bytes and stores every byte that arrives at consecutive positions of `data`
(the bus hands over at most `qty` bytes). Returns the status and the buffer. -/
def readRegister (c : Header) (b : Board σ) (s : Driver σ) (addr qty : Nat)
    (data : List Nat) : Driver σ × Nat × List Nat :=
  let t := b.endTransmission s.hw c.PAJ7620_I2C_BUS_ADDR [u8 addr]
  let result_code := u8 t.2
  let s1 : Driver σ :=
    { s with hw := t.1, trace := s.trace ++ [BusOp.regRead (u8 addr) (u8 qty)] }
  if result_code ≠ 0 then
    (s1, result_code, data)
  else
    let r := b.requestFrom t.1 c.PAJ7620_I2C_BUS_ADDR (u8 qty)
    let bytes := (r.2.take (u8 qty)).map u8
    ({ s1 with hw := r.1 }, 0, bytes ++ data.drop bytes.length)

/-- `getGesturesReg0(data)`. -/
def getGesturesReg0 (c : Header) (b : Board σ) (s : Driver σ) (data : List Nat) :
    Driver σ × Nat × List Nat :=
  readRegister c b s c.PAJ7620_ADDR_GES_RESULT_0 1 data

/-- `getGesturesReg1(data)`. -/
def getGesturesReg1 (c : Header) (b : Board σ) (s : Driver σ) (data : List Nat) :
    Driver σ × Nat × List Nat :=
  readRegister c b s c.PAJ7620_ADDR_GES_RESULT_1 1 data

/-- `selectRegisterBank(bank)`; the status of the write is dropped. -/
def selectRegisterBank (c : Header) (b : Board σ) (s : Driver σ) (bank : Bank_e) : Driver σ :=
  if bank = Bank_e.BANK0 then
    (writeRegister c b s c.PAJ7620_REGISTER_BANK_SEL c.PAJ7620_BANK0).1
  else if bank = Bank_e.BANK1 then
    (writeRegister c b s c.PAJ7620_REGISTER_BANK_SEL c.PAJ7620_BANK1).1
  else s

/-! ## Identity check and configuration -/

/-- `isPAJ7620UDevice()`. -/
def isPAJ7620UDevice (c : Header) (b : Board σ) (s : Driver σ) : Driver σ × Bool :=
  let s1 := selectRegisterBank c b s Bank_e.BANK0
  let r0 := readRegister c b s1 c.PAJ7620_ADDR_PART_ID_0 1 [0]
  let data0 := firstByte r0.2.2
  let r1 := readRegister c b r0.1 c.PAJ7620_ADDR_PART_ID_1 1 [0]
  let data1 := firstByte r1.2.2
  if data0 ≠ PAJ7620_PART_ID_LSB ∨ data1 ≠ PAJ7620_PART_ID_MSB then
    (r1.1, false)
  else
    (r1.1, true)

/-- The loop of `initializeDeviceSettings`, from index `i` on; `fuel` bounds the
number of iterations. -/
def initLoop (c : Header) (b : Board σ) : Nat → Nat → Driver σ → Driver σ
  | 0, _, s => s
  | fuel + 1, i, s =>
    if i < INIT_REG_ARRAY_SIZE c then
      let word := u16 (c.initRegisterArray.getD i 0)
      let address := u8 ((word &&& 0xFF00) >>> 8)
      let value := u8 (word &&& 0x00FF)
      initLoop c b fuel (i + 1) (writeRegister c b s address value).1
    else s

/-- `initializeDeviceSettings()`. -/
def initializeDeviceSettings (c : Header) (b : Board σ) (s : Driver σ) : Driver σ :=
  let s1 := selectRegisterBank c b s Bank_e.BANK0
  initLoop c b (INIT_REG_ARRAY_SIZE c) 0 s1

/-- `begin(chosenWireHandle)`; the bus object is the board `b`. -/
def begin (c : Header) (b : Board σ) (s : Driver σ) : Driver σ × Nat :=
  let s1 : Driver σ := { s with gestureEntryTime := 0, gestureExitTime := 200 }
  let s2 := delayMicroseconds b s1 700
  let s3 := wireBegin b s2
  let s4 := selectRegisterBank c b s3 Bank_e.BANK0
  let chk := isPAJ7620UDevice c b s4
  if !chk.2 then
    (chk.1, 0)
  else
    let s5 := initializeDeviceSettings c b chk.1
    let s6 := selectRegisterBank c b s5 Bank_e.BANK0
    (s6, 1)

/-! ## Cursor, enable and wave count -/

/-- `getCursorX()`. The statement `result << 8;` computes a value and drops
it. -/
def getCursorX (c : Header) (b : Board σ) (s : Driver σ) : Driver σ × Nat :=
  let result := 0
  let r0 := readRegister c b s c.PAJ7620_ADDR_CURSOR_X_LOW 1 [0x00]
  let data0 := firstByte r0.2.2
  let r1 := readRegister c b r0.1 c.PAJ7620_ADDR_CURSOR_X_HIGH 1 [0x00]
  let data1 := firstByte r1.2.2
  let data1 := data1 &&& 0x0F
  let result := result ||| data1
  let _discarded := result <<< 8
  let result := result ||| data0
  (r1.1, result)

/-- `getCursorY()`. The statement `result << 8;` computes a value and drops
it. -/
def getCursorY (c : Header) (b : Board σ) (s : Driver σ) : Driver σ × Nat :=
  let result := 0
  let r0 := readRegister c b s c.PAJ7620_ADDR_CURSOR_Y_LOW 1 [0x00]
  let data0 := firstByte r0.2.2
  let r1 := readRegister c b r0.1 c.PAJ7620_ADDR_CURSOR_Y_HIGH 1 [0x00]
  let data1 := firstByte r1.2.2
  let data1 := data1 &&& 0x0F
  let result := result ||| data1
  let _discarded := result <<< 8
  let result := result ||| data0
  (r1.1, result)

/-- `disable()`. -/
def disable (c : Header) (b : Board σ) (s : Driver σ) : Driver σ :=
  let s1 := selectRegisterBank c b s Bank_e.BANK1
  let s2 := (writeRegister c b s1 c.PAJ7620_ADDR_OPERATION_ENABLE c.PAJ7620_DISABLE).1
  selectRegisterBank c b s2 Bank_e.BANK0

/-- `enable()`. -/
def enable (c : Header) (b : Board σ) (s : Driver σ) : Driver σ :=
  let s1 := selectRegisterBank c b s Bank_e.BANK1
  let s2 := (writeRegister c b s1 c.PAJ7620_ADDR_OPERATION_ENABLE c.PAJ7620_ENABLE).1
  selectRegisterBank c b s2 Bank_e.BANK0

/-- `getWaveCount()`. -/
def getWaveCount (c : Header) (b : Board σ) (s : Driver σ) : Driver σ × Nat :=
  let r := readRegister c b s c.PAJ7620_ADDR_WAVE_COUNT 1 [0]
  let waveCount := firstByte r.2.2
  let waveCount := waveCount &&& 0x0F
  (r.1, waveCount)

/-! ## Gesture decoder -/

/-- `forwardBackwardGestureCheck(initialGesture)`. -/
def forwardBackwardGestureCheck (c : Header) (b : Board σ) (s : Driver σ)
    (initialGesture : Gesture) : Driver σ × Gesture :=
  let s1 := delay b s s.gestureEntryTime
  let r := getGesturesReg0 c b s1 [0]
  let data1 := firstByte r.2.2
  if data1 = c.GES_FORWARD_FLAG then
    (delay b r.1 r.1.gestureExitTime, Gesture.GES_FORWARD)
  else if data1 = c.GES_BACKWARD_FLAG then
    (delay b r.1 r.1.gestureExitTime, Gesture.GES_BACKWARD)
  else
    (r.1, initialGesture)

/-- `readGesture()`. The `switch` is the chain of equality tests on its case
labels, in source order. -/
def readGesture (c : Header) (b : Board σ) (s : Driver σ) : Driver σ × Gesture :=
  let r := getGesturesReg0 c b s [0]
  let data := firstByte r.2.2
  let readCode := r.2.1
  if readCode ≠ 0 then
    (r.1, Gesture.GES_NONE)
  else if data = c.GES_RIGHT_FLAG then
    forwardBackwardGestureCheck c b r.1 Gesture.GES_RIGHT
  else if data = c.GES_LEFT_FLAG then
    forwardBackwardGestureCheck c b r.1 Gesture.GES_LEFT
  else if data = c.GES_UP_FLAG then
    forwardBackwardGestureCheck c b r.1 Gesture.GES_UP
  else if data = c.GES_DOWN_FLAG then
    forwardBackwardGestureCheck c b r.1 Gesture.GES_DOWN
  else if data = c.GES_FORWARD_FLAG then
    (delay b r.1 r.1.gestureExitTime, Gesture.GES_FORWARD)
  else if data = c.GES_BACKWARD_FLAG then
    (delay b r.1 r.1.gestureExitTime, Gesture.GES_BACKWARD)
  else if data = c.GES_CLOCKWISE_FLAG then
    (r.1, Gesture.GES_CLOCKWISE)
  else if data = c.GES_ANTI_CLOCKWISE_FLAG then
    (r.1, Gesture.GES_ANTICLOCKWISE)
  else
    let w := getGesturesReg1 c b r.1 [0]
    let data1 := firstByte w.2.2
    if data1 = c.GES_WAVE_FLAG then
      (w.1, Gesture.GES_WAVE)
    else
      (w.1, Gesture.GES_NONE)

/-! ## Observations used to state the properties -/

/-- The eight case labels of the `switch` in `readGesture`, in source order. -/
def knownFlags (c : Header) : List Nat :=
  [c.GES_RIGHT_FLAG, c.GES_LEFT_FLAG, c.GES_UP_FLAG, c.GES_DOWN_FLAG,
   c.GES_FORWARD_FLAG, c.GES_BACKWARD_FLAG, c.GES_CLOCKWISE_FLAG, c.GES_ANTI_CLOCKWISE_FLAG]

/-- The lateral gestures with their flags. -/
def lateralFlags (c : Header) : List (Gesture × Nat) :=
  [(Gesture.GES_RIGHT, c.GES_RIGHT_FLAG), (Gesture.GES_LEFT, c.GES_LEFT_FLAG),
   (Gesture.GES_UP, c.GES_UP_FLAG), (Gesture.GES_DOWN, c.GES_DOWN_FLAG)]

/-- The depth gestures with their flags. -/
def depthFlags (c : Header) : List (Gesture × Nat) :=
  [(Gesture.GES_FORWARD, c.GES_FORWARD_FLAG), (Gesture.GES_BACKWARD, c.GES_BACKWARD_FLAG)]

/-- The rotation gestures with their flags. -/
def rotationFlags (c : Header) : List (Gesture × Nat) :=
  [(Gesture.GES_CLOCKWISE, c.GES_CLOCKWISE_FLAG),
   (Gesture.GES_ANTICLOCKWISE, c.GES_ANTI_CLOCKWISE_FLAG)]

/-- A byte with exactly one bit set. -/
def IsSingleBit (n : Nat) : Prop := n ∈ [1, 2, 4, 8, 16, 32, 64, 128]

instance (n : Nat) : Decidable (IsSingleBit n) := by
  unfold IsSingleBit; infer_instance

/-- Every case label of the decoder is a byte with exactly one bit set. -/
def SingleBitFlags (c : Header) : Prop := ∀ f ∈ knownFlags c, IsSingleBit f

instance (c : Header) : Decidable (SingleBitFlags c) := by
  unfold SingleBitFlags; infer_instance

/-- The register writes of a trace, as (address, value) pairs, in order. -/
def writesOf (t : List BusOp) : List (Nat × Nat) :=
  t.filterMap fun op =>
    match op with
    | BusOp.regWrite a v => some (a, v)
    | _ => none

/-- The register reads of a trace, as (address, quantity) pairs, in order. -/
def readsOf (t : List BusOp) : List (Nat × Nat) :=
  t.filterMap fun op =>
    match op with
    | BusOp.regRead a q => some (a, q)
    | _ => none

/-- The pair of bytes that the two identity-register reads deliver when `begin`
is started in `s`: the state they are issued in is the one `begin` reaches
after its start-up delay, `wireHandle->begin()` and the two bank selections
that precede them. -/
def identityReadback (c : Header) (b : Board σ) (s : Driver σ) : Nat × Nat :=
  let s1 : Driver σ := { s with gestureEntryTime := 0, gestureExitTime := 200 }
  let s3 := wireBegin b (delayMicroseconds b s1 700)
  let s4 := selectRegisterBank c b (selectRegisterBank c b s3 Bank_e.BANK0) Bank_e.BANK0
  let r0 := readRegister c b s4 c.PAJ7620_ADDR_PART_ID_0 1 [0]
  let r1 := readRegister c b r0.1 c.PAJ7620_ADDR_PART_ID_1 1 [0]
  (firstByte r0.2.2, firstByte r1.2.2)

/-- The board state in which a successful run of `begin` starts to apply the
configuration: the board after the start-up delay, the bus start, the two
bank-select transmissions and the two identity-register reads, each read
being the addressing transmission followed by the request of one byte. -/
def boardAfterIdentityReads (c : Header) (b : Board σ) (h : σ) : σ :=
  let h1 := b.delayMicroseconds h 700
  let h2 := b.wireBegin h1
  let h3 := (b.endTransmission h2 c.PAJ7620_I2C_BUS_ADDR
    [u8 c.PAJ7620_REGISTER_BANK_SEL, u8 c.PAJ7620_BANK0]).1
  let h4 := (b.endTransmission h3 c.PAJ7620_I2C_BUS_ADDR
    [u8 c.PAJ7620_REGISTER_BANK_SEL, u8 c.PAJ7620_BANK0]).1
  let h5 := (b.requestFrom
    (b.endTransmission h4 c.PAJ7620_I2C_BUS_ADDR [u8 c.PAJ7620_ADDR_PART_ID_0]).1
    c.PAJ7620_I2C_BUS_ADDR 1).1
  (b.requestFrom
    (b.endTransmission h5 c.PAJ7620_I2C_BUS_ADDR [u8 c.PAJ7620_ADDR_PART_ID_1]).1
    c.PAJ7620_I2C_BUS_ADDR 1).1

/-- The board after the two-byte transmissions of the given 16-bit words, in
order: for each word its high byte as register address and its low byte as
value. -/
def boardAfterWords (c : Header) (b : Board σ) (h : σ) (words : List Nat) : σ :=
  words.foldl
    (fun h1 w => (b.endTransmission h1 c.PAJ7620_I2C_BUS_ADDR [u16 w / 256, u16 w % 256]).1) h

/-! ## A simulated sensor

Used to run the driver on concrete inputs. Each register holds a queue of the
values that successive reads of it deliver. -/

/-- State of the simulated sensor. -/
structure Sim where
  regs : List (Nat × List Nat)
  ptr : Nat
  bank : Nat
  deriving DecidableEq, Repr

/-- Takes the next value of register `p`: an unknown register delivers no
byte, an exhausted queue delivers zero. -/
def simTake : List (Nat × List Nat) → Nat → List (Nat × List Nat) × List Nat
  | [], _ => ([], [])
  | (a, q) :: rest, p =>
    if a = p then
      match q with
      | [] => ((a, q) :: rest, [0])
      | v :: q1 => ((a, q1) :: rest, [v])
    else
      ((a, q) :: (simTake rest p).1, (simTake rest p).2)

/-- The simulated board. With `nack` set, every transmission fails with
status 2. A two-byte transmission to register `0xEF` selects the bank. -/
def simBoard (nack : Bool) : Board Sim where
  wireBegin := fun h => h
  endTransmission := fun h _ bytes =>
    if nack then (h, 2)
    else
      match bytes with
      | [a] => ({ h with ptr := a }, 0)
      | [a, v] => if a = 0xEF then ({ h with bank := v }, 0) else (h, 0)
      | _ => (h, 0)
  requestFrom := fun h _ _ => ({ h with regs := (simTake h.regs h.ptr).1 }, (simTake h.regs h.ptr).2)
  delay := fun h _ => h
  delayMicroseconds := fun h _ => h

/-- A header with the register map of the PAJ7620U2 data sheet and a short
configuration table. -/
def sampleHeader : Header where
  PAJ7620_I2C_BUS_ADDR := 0x73
  PAJ7620_REGISTER_BANK_SEL := 0xEF
  PAJ7620_BANK0 := 0
  PAJ7620_BANK1 := 1
  PAJ7620_ADDR_PART_ID_0 := 0x00
  PAJ7620_ADDR_PART_ID_1 := 0x01
  PAJ7620_ADDR_GES_RESULT_0 := 0x43
  PAJ7620_ADDR_GES_RESULT_1 := 0x44
  PAJ7620_ADDR_CURSOR_X_LOW := 0x3B
  PAJ7620_ADDR_CURSOR_X_HIGH := 0x3C
  PAJ7620_ADDR_CURSOR_Y_LOW := 0x3D
  PAJ7620_ADDR_CURSOR_Y_HIGH := 0x3E
  PAJ7620_ADDR_WAVE_COUNT := 0xB7
  PAJ7620_ADDR_OPERATION_ENABLE := 0x72
  PAJ7620_ENABLE := 1
  PAJ7620_DISABLE := 0
  GES_RIGHT_FLAG := 1
  GES_LEFT_FLAG := 2
  GES_UP_FLAG := 4
  GES_DOWN_FLAG := 8
  GES_FORWARD_FLAG := 16
  GES_BACKWARD_FLAG := 32
  GES_CLOCKWISE_FLAG := 64
  GES_ANTI_CLOCKWISE_FLAG := 128
  GES_WAVE_FLAG := 1
  initRegisterArray := [0xEF00, 0x4100, 0x4200, 0xEF01, 0x7201]

/-- A driver on the simulated sensor whose registers hold the given queues. -/
def simDriver (regs : List (Nat × List Nat)) : Driver Sim where
  hw := { regs := regs, ptr := 0, bank := 1 }
  trace := []
  gestureEntryTime := 5
  gestureExitTime := 200

/-! ## Basic facts about register access -/

section Lemmas

variable (c : Header) (b : Board σ) (s : Driver σ)

@[simp] theorem u8_one : u8 1 = 1 := rfl

@[simp] theorem u8_zero : u8 0 = 0 := rfl

theorem u8_lt (n : Nat) : u8 n < 256 := Nat.mod_lt _ (by decide)

theorem u16_lt (n : Nat) : u16 n < 65536 := Nat.mod_lt _ (by decide)

@[simp] theorem writeRegister_trace (addr cmd : Nat) :
    (writeRegister c b s addr cmd).1.trace = s.trace ++ [BusOp.regWrite (u8 addr) (u8 cmd)] := rfl

@[simp] theorem writeRegister_hw (addr cmd : Nat) :
    (writeRegister c b s addr cmd).1.hw =
      (b.endTransmission s.hw c.PAJ7620_I2C_BUS_ADDR [u8 addr, u8 cmd]).1 := rfl

@[simp] theorem writeRegister_entryTime (addr cmd : Nat) :
    (writeRegister c b s addr cmd).1.gestureEntryTime = s.gestureEntryTime := rfl

@[simp] theorem writeRegister_exitTime (addr cmd : Nat) :
    (writeRegister c b s addr cmd).1.gestureExitTime = s.gestureExitTime := rfl

@[simp] theorem readRegister_trace (addr qty : Nat) (data : List Nat) :
    (readRegister c b s addr qty data).1.trace = s.trace ++ [BusOp.regRead (u8 addr) (u8 qty)] := by
  simp only [readRegister]
  split <;> rfl

@[simp] theorem readRegister_entryTime (addr qty : Nat) (data : List Nat) :
    (readRegister c b s addr qty data).1.gestureEntryTime = s.gestureEntryTime := by
  simp only [readRegister]
  split <;> rfl

@[simp] theorem readRegister_exitTime (addr qty : Nat) (data : List Nat) :
    (readRegister c b s addr qty data).1.gestureExitTime = s.gestureExitTime := by
  simp only [readRegister]
  split <;> rfl

/-- A one-byte read into a one-byte variable leaves a one-byte variable. -/
theorem readRegister_one_length (addr x : Nat) :
    (readRegister c b s addr 1 [x]).2.2.length = 1 := by
  simp only [readRegister]
  split
  · rfl
  · rcases h : (b.requestFrom (b.endTransmission s.hw c.PAJ7620_I2C_BUS_ADDR [u8 addr]).1
        c.PAJ7620_I2C_BUS_ADDR (u8 1)).2 with _ | ⟨y, ys⟩ <;> simp

/-- The byte a one-byte read leaves in a variable initialised to zero is below 256. -/
theorem readRegister_one_lt (addr : Nat) :
    firstByte (readRegister c b s addr 1 [0]).2.2 < 256 := by
  simp only [readRegister]
  split
  · simp [firstByte]
  · rcases h : (b.requestFrom (b.endTransmission s.hw c.PAJ7620_I2C_BUS_ADDR [u8 addr]).1
        c.PAJ7620_I2C_BUS_ADDR (u8 1)).2 with _ | ⟨y, ys⟩
    · simp [firstByte]
    · simpa [firstByte] using u8_lt y

/-- A failed read leaves the variable at its initial value. -/
theorem readRegister_failed (addr qty : Nat) (data : List Nat)
    (h : (readRegister c b s addr qty data).2.1 ≠ 0) :
    (readRegister c b s addr qty data).2.2 = data := by
  simp only [readRegister] at h ⊢
  split
  · rfl
  · rename_i h0
    simp [h0] at h

@[simp] theorem selectRegisterBank_trace (bank : Bank_e) :
    (selectRegisterBank c b s bank).trace =
      s.trace ++ [BusOp.regWrite (u8 c.PAJ7620_REGISTER_BANK_SEL)
        (u8 (match bank with
          | Bank_e.BANK0 => c.PAJ7620_BANK0
          | Bank_e.BANK1 => c.PAJ7620_BANK1))] := by
  cases bank <;> simp [selectRegisterBank]

@[simp] theorem selectRegisterBank_hw (bank : Bank_e) :
    (selectRegisterBank c b s bank).hw =
      (b.endTransmission s.hw c.PAJ7620_I2C_BUS_ADDR [u8 c.PAJ7620_REGISTER_BANK_SEL,
        u8 (match bank with
          | Bank_e.BANK0 => c.PAJ7620_BANK0
          | Bank_e.BANK1 => c.PAJ7620_BANK1)]).1 := by
  cases bank <;> simp [selectRegisterBank]

@[simp] theorem selectRegisterBank_entryTime (bank : Bank_e) :
    (selectRegisterBank c b s bank).gestureEntryTime = s.gestureEntryTime := by
  cases bank <;> simp [selectRegisterBank]

@[simp] theorem selectRegisterBank_exitTime (bank : Bank_e) :
    (selectRegisterBank c b s bank).gestureExitTime = s.gestureExitTime := by
  cases bank <;> simp [selectRegisterBank]

@[simp] theorem getGesturesReg0_trace (data : List Nat) :
    (getGesturesReg0 c b s data).1.trace =
      s.trace ++ [BusOp.regRead (u8 c.PAJ7620_ADDR_GES_RESULT_0) 1] := by
  simp [getGesturesReg0]

@[simp] theorem getGesturesReg0_entryTime (data : List Nat) :
    (getGesturesReg0 c b s data).1.gestureEntryTime = s.gestureEntryTime := by
  simp [getGesturesReg0]

@[simp] theorem getGesturesReg0_exitTime (data : List Nat) :
    (getGesturesReg0 c b s data).1.gestureExitTime = s.gestureExitTime := by
  simp [getGesturesReg0]

@[simp] theorem getGesturesReg1_trace (data : List Nat) :
    (getGesturesReg1 c b s data).1.trace =
      s.trace ++ [BusOp.regRead (u8 c.PAJ7620_ADDR_GES_RESULT_1) 1] := by
  simp [getGesturesReg1]

/-- Every read of the primary flag register into a one-byte variable ends with
a state, a status and one byte in the variable. -/
theorem getGesturesReg0_shape (x : Nat) :
    ∃ (s2 : Driver σ) (rc byte : Nat), getGesturesReg0 c b s [x] = (s2, rc, [byte]) := by
  have hlen := readRegister_one_length c b s c.PAJ7620_ADDR_GES_RESULT_0 x
  rcases h : (readRegister c b s c.PAJ7620_ADDR_GES_RESULT_0 1 [x]) with ⟨s2, rc, buf⟩
  rw [h] at hlen
  obtain ⟨byte, rfl⟩ := List.length_eq_one.1 hlen
  exact ⟨s2, rc, byte, h⟩

/-- Every read of the secondary flag register into a one-byte variable ends
with a state, a status and one byte in the variable. -/
theorem getGesturesReg1_shape (x : Nat) :
    ∃ (s2 : Driver σ) (rc byte : Nat), getGesturesReg1 c b s [x] = (s2, rc, [byte]) := by
  have hlen := readRegister_one_length c b s c.PAJ7620_ADDR_GES_RESULT_1 x
  rcases h : (readRegister c b s c.PAJ7620_ADDR_GES_RESULT_1 1 [x]) with ⟨s2, rc, buf⟩
  rw [h] at hlen
  obtain ⟨byte, rfl⟩ := List.length_eq_one.1 hlen
  exact ⟨s2, rc, byte, h⟩

/-- Pairwise distinct case labels, spelled out. -/
theorem knownFlags_nodup_iff :
    (knownFlags c).Nodup ↔
      (c.GES_RIGHT_FLAG ≠ c.GES_LEFT_FLAG ∧ c.GES_RIGHT_FLAG ≠ c.GES_UP_FLAG ∧
        c.GES_RIGHT_FLAG ≠ c.GES_DOWN_FLAG ∧ c.GES_RIGHT_FLAG ≠ c.GES_FORWARD_FLAG ∧
        c.GES_RIGHT_FLAG ≠ c.GES_BACKWARD_FLAG ∧ c.GES_RIGHT_FLAG ≠ c.GES_CLOCKWISE_FLAG ∧
        c.GES_RIGHT_FLAG ≠ c.GES_ANTI_CLOCKWISE_FLAG) ∧
      (c.GES_LEFT_FLAG ≠ c.GES_UP_FLAG ∧ c.GES_LEFT_FLAG ≠ c.GES_DOWN_FLAG ∧
        c.GES_LEFT_FLAG ≠ c.GES_FORWARD_FLAG ∧ c.GES_LEFT_FLAG ≠ c.GES_BACKWARD_FLAG ∧
        c.GES_LEFT_FLAG ≠ c.GES_CLOCKWISE_FLAG ∧ c.GES_LEFT_FLAG ≠ c.GES_ANTI_CLOCKWISE_FLAG) ∧
      (c.GES_UP_FLAG ≠ c.GES_DOWN_FLAG ∧ c.GES_UP_FLAG ≠ c.GES_FORWARD_FLAG ∧
        c.GES_UP_FLAG ≠ c.GES_BACKWARD_FLAG ∧ c.GES_UP_FLAG ≠ c.GES_CLOCKWISE_FLAG ∧
        c.GES_UP_FLAG ≠ c.GES_ANTI_CLOCKWISE_FLAG) ∧
      (c.GES_DOWN_FLAG ≠ c.GES_FORWARD_FLAG ∧ c.GES_DOWN_FLAG ≠ c.GES_BACKWARD_FLAG ∧
        c.GES_DOWN_FLAG ≠ c.GES_CLOCKWISE_FLAG ∧ c.GES_DOWN_FLAG ≠ c.GES_ANTI_CLOCKWISE_FLAG) ∧
      (c.GES_FORWARD_FLAG ≠ c.GES_BACKWARD_FLAG ∧ c.GES_FORWARD_FLAG ≠ c.GES_CLOCKWISE_FLAG ∧
        c.GES_FORWARD_FLAG ≠ c.GES_ANTI_CLOCKWISE_FLAG) ∧
      (c.GES_BACKWARD_FLAG ≠ c.GES_CLOCKWISE_FLAG ∧
        c.GES_BACKWARD_FLAG ≠ c.GES_ANTI_CLOCKWISE_FLAG) ∧
      c.GES_CLOCKWISE_FLAG ≠ c.GES_ANTI_CLOCKWISE_FLAG := by
  simp only [knownFlags, List.nodup_cons, List.mem_cons, List.mem_singleton, not_or,
    List.not_mem_nil, not_false_eq_true, List.nodup_nil, and_true, ne_eq]

/-- A value that is none of the case labels, spelled out. -/
theorem not_mem_knownFlags_iff (x : Nat) :
    x ∉ knownFlags c ↔
      x ≠ c.GES_RIGHT_FLAG ∧ x ≠ c.GES_LEFT_FLAG ∧ x ≠ c.GES_UP_FLAG ∧ x ≠ c.GES_DOWN_FLAG ∧
      x ≠ c.GES_FORWARD_FLAG ∧ x ≠ c.GES_BACKWARD_FLAG ∧ x ≠ c.GES_CLOCKWISE_FLAG ∧
      x ≠ c.GES_ANTI_CLOCKWISE_FLAG := by
  simp [knownFlags]

/-- A byte that is not a single-bit pattern is none of the case labels when
these are single-bit patterns. -/
theorem not_mem_knownFlags_of_not_singleBit (x : Nat) (hsb : SingleBitFlags c)
    (hx : ¬ IsSingleBit x) : x ∉ knownFlags c :=
  fun hmem => hx (hsb x hmem)

end Lemmas

/-! ## The gesture decoder -/

/-- The decoder after a successful primary read that delivered `data`. -/
theorem readGesture_of_read (c : Header) (b : Board σ) (s s1 : Driver σ) (data : Nat)
    (h1 : getGesturesReg0 c b s [0] = (s1, 0, [data])) :
    readGesture c b s =
      if data = c.GES_RIGHT_FLAG then forwardBackwardGestureCheck c b s1 Gesture.GES_RIGHT
      else if data = c.GES_LEFT_FLAG then forwardBackwardGestureCheck c b s1 Gesture.GES_LEFT
      else if data = c.GES_UP_FLAG then forwardBackwardGestureCheck c b s1 Gesture.GES_UP
      else if data = c.GES_DOWN_FLAG then forwardBackwardGestureCheck c b s1 Gesture.GES_DOWN
      else if data = c.GES_FORWARD_FLAG then (delay b s1 s1.gestureExitTime, Gesture.GES_FORWARD)
      else if data = c.GES_BACKWARD_FLAG then
        (delay b s1 s1.gestureExitTime, Gesture.GES_BACKWARD)
      else if data = c.GES_CLOCKWISE_FLAG then (s1, Gesture.GES_CLOCKWISE)
      else if data = c.GES_ANTI_CLOCKWISE_FLAG then (s1, Gesture.GES_ANTICLOCKWISE)
      else if firstByte (getGesturesReg1 c b s1 [0]).2.2 = c.GES_WAVE_FLAG then
        ((getGesturesReg1 c b s1 [0]).1, Gesture.GES_WAVE)
      else ((getGesturesReg1 c b s1 [0]).1, Gesture.GES_NONE) := by
  simp only [readGesture, h1, firstByte, List.headD_cons, ne_eq, not_true_eq_false, if_false]

/-- The disambiguation step when its read leaves `byte` in the variable. -/
theorem forwardBackwardGestureCheck_of_read (c : Header) (b : Board σ) (s1 s2 : Driver σ)
    (g : Gesture) (rc byte : Nat)
    (h2 : getGesturesReg0 c b (delay b s1 s1.gestureEntryTime) [0] = (s2, rc, [byte])) :
    forwardBackwardGestureCheck c b s1 g =
      if byte = c.GES_FORWARD_FLAG then (delay b s2 s2.gestureExitTime, Gesture.GES_FORWARD)
      else if byte = c.GES_BACKWARD_FLAG then (delay b s2 s2.gestureExitTime, Gesture.GES_BACKWARD)
      else (s2, g) := by
  simp only [forwardBackwardGestureCheck, h2, firstByte, List.headD_cons]

/-- C1: when the first, successful read of the primary flag register delivers
the flag of a lateral gesture `g` (right, left, up or down) and the second read
of that register, issued after the entry delay, leaves the byte `byte` in the
variable, `readGesture` returns Forward if `byte` is the Forward flag, Backward
if it is the Backward flag, and `g` for every other `byte`. -/
theorem readGesture_lateral_disambiguation (c : Header) (b : Board σ) (s s1 s2 : Driver σ)
    (g : Gesture) (f rc byte : Nat)
    (hnd : (knownFlags c).Nodup)
    (hg : (g, f) ∈ lateralFlags c)
    (h1 : getGesturesReg0 c b s [0] = (s1, 0, [f]))
    (h2 : getGesturesReg0 c b (delay b s1 s1.gestureEntryTime) [0] = (s2, rc, [byte])) :
    (readGesture c b s).2 =
      if byte = c.GES_FORWARD_FLAG then Gesture.GES_FORWARD
      else if byte = c.GES_BACKWARD_FLAG then Gesture.GES_BACKWARD
      else g := by
  have hd := (knownFlags_nodup_iff c).1 hnd
  have hchk : (forwardBackwardGestureCheck c b s1 g).2 =
      if byte = c.GES_FORWARD_FLAG then Gesture.GES_FORWARD
      else if byte = c.GES_BACKWARD_FLAG then Gesture.GES_BACKWARD
      else g := by
    rw [forwardBackwardGestureCheck_of_read c b s1 s2 g rc byte h2]
    split_ifs <;> rfl
  rw [readGesture_of_read c b s s1 f h1, ← hchk]
  simp only [lateralFlags, List.mem_cons, Prod.mk.injEq, List.mem_singleton,
    List.not_mem_nil, or_false] at hg
  rcases hg with ⟨rfl, rfl⟩ | ⟨rfl, rfl⟩ | ⟨rfl, rfl⟩ | ⟨rfl, rfl⟩
  · rw [if_pos rfl]
  · rw [if_neg (Ne.symm hd.1.1), if_pos rfl]
  · rw [if_neg (Ne.symm hd.1.2.1), if_neg (Ne.symm hd.2.1.1), if_pos rfl]
  · rw [if_neg (Ne.symm hd.1.2.2.1), if_neg (Ne.symm hd.2.1.2.1), if_neg (Ne.symm hd.2.2.1.1),
      if_pos rfl]

/-- C1 at a concrete input: the primary register first delivers the Right flag
and then the Forward flag. -/
theorem readGesture_lateral_disambiguation_witness :
    (readGesture sampleHeader (simBoard false) (simDriver [(0x43, [1, 16])])).2 =
      Gesture.GES_FORWARD :=
  readGesture_lateral_disambiguation sampleHeader (simBoard false)
    (simDriver [(0x43, [1, 16])])
    { hw := { regs := [(0x43, [16])], ptr := 0x43, bank := 1 },
      trace := [BusOp.regRead 0x43 1], gestureEntryTime := 5, gestureExitTime := 200 }
    { hw := { regs := [(0x43, [])], ptr := 0x43, bank := 1 },
      trace := [BusOp.regRead 0x43 1, BusOp.delay 5, BusOp.regRead 0x43 1],
      gestureEntryTime := 5, gestureExitTime := 200 }
    Gesture.GES_RIGHT 1 0 16 (by decide) (by decide) rfl rfl

/-- C2: when the successful primary read delivers a byte that is none of the
eight case labels (in particular, with single-bit labels, zero or a byte with
more than one bit set), `readGesture` reads the secondary flag register once,
returns Wave if the byte that read leaves equals the Wave flag and None
otherwise, and the whole call consists of the primary read followed by the
secondary read: no second primary read and no delay. -/
theorem readGesture_unknown_flag (c : Header) (b : Board σ) (s s1 s2 : Driver σ)
    (data rc w : Nat)
    (hunk : data ∉ knownFlags c ∨ (SingleBitFlags c ∧ ¬ IsSingleBit data))
    (h1 : getGesturesReg0 c b s [0] = (s1, 0, [data]))
    (h2 : getGesturesReg1 c b s1 [0] = (s2, rc, [w])) :
    readGesture c b s =
        (s2, if w = c.GES_WAVE_FLAG then Gesture.GES_WAVE else Gesture.GES_NONE) ∧
      s2.trace = s.trace ++ [BusOp.regRead (u8 c.PAJ7620_ADDR_GES_RESULT_0) 1,
        BusOp.regRead (u8 c.PAJ7620_ADDR_GES_RESULT_1) 1] := by
  have hno : data ∉ knownFlags c := by
    rcases hunk with h | ⟨hsb, hx⟩
    · exact h
    · exact not_mem_knownFlags_of_not_singleBit c data hsb hx
  obtain ⟨n1, n2, n3, n4, n5, n6, n7, n8⟩ := (not_mem_knownFlags_iff c data).1 hno
  have t1 : s1.trace = s.trace ++ [BusOp.regRead (u8 c.PAJ7620_ADDR_GES_RESULT_0) 1] := by
    have h := getGesturesReg0_trace c b s [0]
    rw [h1] at h
    exact h
  have t2 : s2.trace = s1.trace ++ [BusOp.regRead (u8 c.PAJ7620_ADDR_GES_RESULT_1) 1] := by
    have h := getGesturesReg1_trace c b s1 [0]
    rw [h2] at h
    exact h
  refine ⟨?_, ?_⟩
  · rw [readGesture_of_read c b s s1 data h1, if_neg n1, if_neg n2, if_neg n3, if_neg n4,
      if_neg n5, if_neg n6, if_neg n7, if_neg n8, h2]
    simp only [firstByte, List.headD_cons]
    split_ifs <;> rfl
  · rw [t2, t1, List.append_assoc]
    rfl

/-- C2 at a concrete input: the primary register delivers `0x03` (two bits
set) and the secondary register delivers the Wave flag. -/
theorem readGesture_unknown_flag_witness :
    readGesture sampleHeader (simBoard false) (simDriver [(0x43, [3]), (0x44, [1])]) =
        ({ hw := { regs := [(0x43, []), (0x44, [])], ptr := 0x44, bank := 1 },
           trace := [BusOp.regRead 0x43 1, BusOp.regRead 0x44 1],
           gestureEntryTime := 5, gestureExitTime := 200 }, Gesture.GES_WAVE) ∧
      [BusOp.regRead 0x43 1, BusOp.regRead 0x44 1] =
        [] ++ [BusOp.regRead 0x43 1, BusOp.regRead 0x44 1] :=
  readGesture_unknown_flag sampleHeader (simBoard false)
    (simDriver [(0x43, [3]), (0x44, [1])])
    { hw := { regs := [(0x43, []), (0x44, [1])], ptr := 0x43, bank := 1 },
      trace := [BusOp.regRead 0x43 1], gestureEntryTime := 5, gestureExitTime := 200 }
    { hw := { regs := [(0x43, []), (0x44, [])], ptr := 0x44, bank := 1 },
      trace := [BusOp.regRead 0x43 1, BusOp.regRead 0x44 1],
      gestureEntryTime := 5, gestureExitTime := 200 }
    3 0 1 (Or.inr ⟨by decide, by decide⟩) rfl rfl

/-- C3: when the transmission that addresses the primary flag register ends
with a nonzero status, `readGesture` returns None, and the call consists of
that one read attempt: the trace gains the single read entry (no second primary
read, no secondary read, no delay), the board has seen the addressing
transmission only, and the timing fields are untouched. -/
theorem readGesture_transport_error (c : Header) (b : Board σ) (s : Driver σ)
    (hfail : u8 (b.endTransmission s.hw c.PAJ7620_I2C_BUS_ADDR
      [u8 c.PAJ7620_ADDR_GES_RESULT_0]).2 ≠ 0) :
    readGesture c b s =
      ({ hw := (b.endTransmission s.hw c.PAJ7620_I2C_BUS_ADDR
                 [u8 c.PAJ7620_ADDR_GES_RESULT_0]).1,
         trace := s.trace ++ [BusOp.regRead (u8 c.PAJ7620_ADDR_GES_RESULT_0) 1],
         gestureEntryTime := s.gestureEntryTime,
         gestureExitTime := s.gestureExitTime }, Gesture.GES_NONE) := by
  simp only [readGesture, getGesturesReg0, readRegister, hfail, ne_eq, not_false_eq_true,
    if_true, u8_one]

/-- C3 at a concrete input: a board that fails every transmission with
status 2, although the flag registers hold a gesture. -/
theorem readGesture_transport_error_witness :
    readGesture sampleHeader (simBoard true) (simDriver [(0x43, [1, 16]), (0x44, [1])]) =
      ({ hw := { regs := [(0x43, [1, 16]), (0x44, [1])], ptr := 0, bank := 1 },
         trace := [BusOp.regRead 0x43 1],
         gestureEntryTime := 5, gestureExitTime := 200 }, Gesture.GES_NONE) :=
  readGesture_transport_error sampleHeader (simBoard true)
    (simDriver [(0x43, [1, 16]), (0x44, [1])]) (by decide)

/-- C6: when the successful primary read delivers the Forward flag
(respectively the Backward flag), `readGesture` waits `gestureExitTime` and
returns Forward (respectively Backward); the whole call consists of the one
read of the primary register followed by that delay. -/
theorem readGesture_depth_direct (c : Header) (b : Board σ) (s s1 : Driver σ)
    (g : Gesture) (f : Nat)
    (hnd : (knownFlags c).Nodup)
    (hg : (g, f) ∈ depthFlags c)
    (h1 : getGesturesReg0 c b s [0] = (s1, 0, [f])) :
    readGesture c b s = (delay b s1 s.gestureExitTime, g) ∧
      (readGesture c b s).1.trace =
        s.trace ++ [BusOp.regRead (u8 c.PAJ7620_ADDR_GES_RESULT_0) 1,
          BusOp.delay s.gestureExitTime] ∧
      readsOf (readGesture c b s).1.trace =
        readsOf s.trace ++ [(u8 c.PAJ7620_ADDR_GES_RESULT_0, 1)] := by
  have hd := (knownFlags_nodup_iff c).1 hnd
  have t1 : s1.trace = s.trace ++ [BusOp.regRead (u8 c.PAJ7620_ADDR_GES_RESULT_0) 1] := by
    have h := getGesturesReg0_trace c b s [0]
    rw [h1] at h
    exact h
  have e1 : s1.gestureExitTime = s.gestureExitTime := by
    have h := getGesturesReg0_exitTime c b s [0]
    rw [h1] at h
    exact h
  have key : readGesture c b s = (delay b s1 s.gestureExitTime, g) := by
    rw [readGesture_of_read c b s s1 f h1, e1]
    simp only [depthFlags, List.mem_cons, Prod.mk.injEq, List.mem_singleton,
      List.not_mem_nil, or_false] at hg
    rcases hg with ⟨rfl, rfl⟩ | ⟨rfl, rfl⟩
    · rw [if_neg (Ne.symm hd.1.2.2.2.1), if_neg (Ne.symm hd.2.1.2.2.1),
        if_neg (Ne.symm hd.2.2.1.2.1), if_neg (Ne.symm hd.2.2.2.1.1), if_pos rfl]
    · rw [if_neg (Ne.symm hd.1.2.2.2.2.1), if_neg (Ne.symm hd.2.1.2.2.2.1),
        if_neg (Ne.symm hd.2.2.1.2.2.1), if_neg (Ne.symm hd.2.2.2.1.2.1),
        if_neg (Ne.symm hd.2.2.2.2.1.1), if_pos rfl]
  refine ⟨key, ?_, ?_⟩
  · rw [key]
    simp [delay, t1]
  · rw [key]
    simp [delay, t1, readsOf, List.filterMap_append]

/-- C6 at a concrete input: the primary register delivers the Backward flag. -/
theorem readGesture_depth_direct_witness :
    readGesture sampleHeader (simBoard false) (simDriver [(0x43, [32, 1]), (0x44, [1])]) =
        ({ hw := { regs := [(0x43, [1]), (0x44, [1])], ptr := 0x43, bank := 1 },
           trace := [BusOp.regRead 0x43 1, BusOp.delay 200],
           gestureEntryTime := 5, gestureExitTime := 200 }, Gesture.GES_BACKWARD) ∧
      (readGesture sampleHeader (simBoard false)
          (simDriver [(0x43, [32, 1]), (0x44, [1])])).1.trace =
        [BusOp.regRead 0x43 1, BusOp.delay 200] ∧
      readsOf (readGesture sampleHeader (simBoard false)
          (simDriver [(0x43, [32, 1]), (0x44, [1])])).1.trace = [(0x43, 1)] :=
  readGesture_depth_direct sampleHeader (simBoard false)
    (simDriver [(0x43, [32, 1]), (0x44, [1])])
    { hw := { regs := [(0x43, [1]), (0x44, [1])], ptr := 0x43, bank := 1 },
      trace := [BusOp.regRead 0x43 1], gestureEntryTime := 5, gestureExitTime := 200 }
    Gesture.GES_BACKWARD 32 (by decide) (by decide) rfl

/-- C7: when the successful primary read delivers the Clockwise flag
(respectively the Anticlockwise flag), `readGesture` returns Clockwise
(respectively Anticlockwise) in the state that read left: the whole call
consists of the one read of the primary register, with no delay and no
further read, whatever the two timing fields hold. -/
theorem readGesture_rotation_direct (c : Header) (b : Board σ) (s s1 : Driver σ)
    (g : Gesture) (f : Nat)
    (hnd : (knownFlags c).Nodup)
    (hg : (g, f) ∈ rotationFlags c)
    (h1 : getGesturesReg0 c b s [0] = (s1, 0, [f])) :
    readGesture c b s = (s1, g) ∧
      (readGesture c b s).1.trace =
        s.trace ++ [BusOp.regRead (u8 c.PAJ7620_ADDR_GES_RESULT_0) 1] := by
  have hd := (knownFlags_nodup_iff c).1 hnd
  have t1 : s1.trace = s.trace ++ [BusOp.regRead (u8 c.PAJ7620_ADDR_GES_RESULT_0) 1] := by
    have h := getGesturesReg0_trace c b s [0]
    rw [h1] at h
    exact h
  have key : readGesture c b s = (s1, g) := by
    rw [readGesture_of_read c b s s1 f h1]
    simp only [rotationFlags, List.mem_cons, Prod.mk.injEq, List.mem_singleton,
      List.not_mem_nil, or_false] at hg
    rcases hg with ⟨rfl, rfl⟩ | ⟨rfl, rfl⟩
    · rw [if_neg (Ne.symm hd.1.2.2.2.2.2.1), if_neg (Ne.symm hd.2.1.2.2.2.2.1),
        if_neg (Ne.symm hd.2.2.1.2.2.2.1), if_neg (Ne.symm hd.2.2.2.1.2.2.1),
        if_neg (Ne.symm hd.2.2.2.2.1.2.1), if_neg (Ne.symm hd.2.2.2.2.2.1.1), if_pos rfl]
    · rw [if_neg (Ne.symm hd.1.2.2.2.2.2.2), if_neg (Ne.symm hd.2.1.2.2.2.2.2),
        if_neg (Ne.symm hd.2.2.1.2.2.2.2), if_neg (Ne.symm hd.2.2.2.1.2.2.2),
        if_neg (Ne.symm hd.2.2.2.2.1.2.2), if_neg (Ne.symm hd.2.2.2.2.2.1.2),
        if_neg (Ne.symm hd.2.2.2.2.2.2), if_pos rfl]
  refine ⟨key, ?_⟩
  rw [key]
  exact t1

/-- C7 at a concrete input: the primary register delivers the Anticlockwise
flag while the timing fields are 5 and 200. -/
theorem readGesture_rotation_direct_witness :
    readGesture sampleHeader (simBoard false) (simDriver [(0x43, [128, 16]), (0x44, [1])]) =
        ({ hw := { regs := [(0x43, [16]), (0x44, [1])], ptr := 0x43, bank := 1 },
           trace := [BusOp.regRead 0x43 1],
           gestureEntryTime := 5, gestureExitTime := 200 }, Gesture.GES_ANTICLOCKWISE) ∧
      (readGesture sampleHeader (simBoard false)
          (simDriver [(0x43, [128, 16]), (0x44, [1])])).1.trace = [BusOp.regRead 0x43 1] :=
  readGesture_rotation_direct sampleHeader (simBoard false)
    (simDriver [(0x43, [128, 16]), (0x44, [1])])
    { hw := { regs := [(0x43, [16]), (0x44, [1])], ptr := 0x43, bank := 1 },
      trace := [BusOp.regRead 0x43 1], gestureEntryTime := 5, gestureExitTime := 200 }
    Gesture.GES_ANTICLOCKWISE 128 (by decide) (by decide) rfl

/-! ## Initialisation -/

/-- The high byte of a 16-bit word, as the loop of `initializeDeviceSettings`
computes it. -/
theorem address_of_word (w : Nat) : u8 ((u16 w &&& 0xFF00) >>> 8) = u16 w / 256 := by
  have h : u16 w < 65536 := Nat.mod_lt _ (by decide)
  have e : (u16 w &&& 0xFF00) >>> 8 = (u16 w >>> 8) &&& (2 ^ 8 - 1) := by
    apply Nat.eq_of_testBit_eq
    intro i
    have k : (0xFF00 : Nat) = (2 ^ 8 - 1) <<< 8 := by decide
    rw [k, Nat.testBit_shiftRight, Nat.testBit_and, Nat.testBit_and, Nat.testBit_shiftRight,
      Nat.testBit_shiftLeft]
    simp
  rw [e, Nat.and_pow_two_sub_one_eq_mod, Nat.shiftRight_eq_div_pow]
  unfold u8
  omega

/-- The low byte of a 16-bit word, as the loop of `initializeDeviceSettings`
computes it. -/
theorem value_of_word (w : Nat) : u8 (u16 w &&& 0x00FF) = u16 w % 256 := by
  have e : u16 w &&& 0x00FF = u16 w &&& (2 ^ 8 - 1) := rfl
  rw [e, Nat.and_pow_two_sub_one_eq_mod]
  unfold u8
  omega

/-- The loop writes the entries from index `i` on, in table order, as long as
the fuel lasts. -/
theorem initLoop_trace (c : Header) (b : Board σ) (fuel i : Nat) (s : Driver σ) :
    (initLoop c b fuel i s).trace =
      s.trace ++ ((c.initRegisterArray.drop i).take fuel).map
        (fun w => BusOp.regWrite (u16 w / 256) (u16 w % 256)) := by
  induction fuel generalizing i s with
  | zero => simp [initLoop]
  | succ n ih =>
    by_cases hi : i < c.initRegisterArray.length
    · have hd : c.initRegisterArray.drop i =
          c.initRegisterArray.getD i 0 :: c.initRegisterArray.drop (i + 1) := by
        rw [List.drop_eq_getElem_cons hi, List.getD_eq_getElem _ _ hi]
      simp only [initLoop, INIT_REG_ARRAY_SIZE, hi, if_true]
      rw [ih, hd, writeRegister_trace, address_of_word, value_of_word]
      simp [u8, Nat.mod_mod_of_dvd, Nat.div_lt_iff_lt_mul, u16_lt]
    · have hd : c.initRegisterArray.drop i = [] :=
        List.drop_eq_nil_of_le (Nat.le_of_not_lt hi)
      simp [initLoop, INIT_REG_ARRAY_SIZE, hi, hd]

/-- The trace of `initializeDeviceSettings`: the bank selection, then one write
per table entry, in table order. -/
theorem initializeDeviceSettings_trace (c : Header) (b : Board σ) (s : Driver σ) :
    (initializeDeviceSettings c b s).trace =
      s.trace ++ [BusOp.regWrite (u8 c.PAJ7620_REGISTER_BANK_SEL) (u8 c.PAJ7620_BANK0)] ++
        c.initRegisterArray.map (fun w => BusOp.regWrite (u16 w / 256) (u16 w % 256)) := by
  simp [initializeDeviceSettings, initLoop_trace, INIT_REG_ARRAY_SIZE]

/-- The trace of `isPAJ7620UDevice`: the bank selection and the two reads. -/
theorem isPAJ7620UDevice_trace (c : Header) (b : Board σ) (s : Driver σ) :
    (isPAJ7620UDevice c b s).1.trace =
      s.trace ++ [BusOp.regWrite (u8 c.PAJ7620_REGISTER_BANK_SEL) (u8 c.PAJ7620_BANK0),
        BusOp.regRead (u8 c.PAJ7620_ADDR_PART_ID_0) 1,
        BusOp.regRead (u8 c.PAJ7620_ADDR_PART_ID_1) 1] := by
  simp only [isPAJ7620UDevice]
  split <;> simp

/-- The verdict of the identity check inside `begin`, in terms of the bytes
read back. -/
theorem begin_check (c : Header) (b : Board σ) (s : Driver σ) :
    (isPAJ7620UDevice c b
        (selectRegisterBank c b
          (wireBegin b (delayMicroseconds b
            { s with gestureEntryTime := 0, gestureExitTime := 200 } 700))
          Bank_e.BANK0)).2 =
      decide (identityReadback c b s = (0x20, 0x76)) := by
  simp only [isPAJ7620UDevice, identityReadback, PAJ7620_PART_ID_LSB, PAJ7620_PART_ID_MSB]
  split <;> rename_i h <;> simp only [Prod.mk.injEq] <;> [skip; rw [not_or, not_not, not_not] at h]
  · rcases h with h | h <;> simp [h]
  · simp [h.1, h.2]

/-- C4: when the two identity registers read back a pair other than
(0x20, 0x76), `begin` returns 0 and its trace is the start-up delay, the bus
start, two bank-select writes for Bank0 and the two identity reads; the only
register writes are those two bank-select writes, so no entry of the
configuration table is written. -/
theorem begin_identity_mismatch (c : Header) (b : Board σ) (s : Driver σ)
    (hid : identityReadback c b s ≠ (0x20, 0x76)) :
    (begin c b s).2 = 0 ∧
      (begin c b s).1.trace =
        s.trace ++ [BusOp.delayMicroseconds 700, BusOp.wireBegin,
          BusOp.regWrite (u8 c.PAJ7620_REGISTER_BANK_SEL) (u8 c.PAJ7620_BANK0),
          BusOp.regWrite (u8 c.PAJ7620_REGISTER_BANK_SEL) (u8 c.PAJ7620_BANK0),
          BusOp.regRead (u8 c.PAJ7620_ADDR_PART_ID_0) 1,
          BusOp.regRead (u8 c.PAJ7620_ADDR_PART_ID_1) 1] ∧
      writesOf (begin c b s).1.trace =
        writesOf s.trace ++
          [(u8 c.PAJ7620_REGISTER_BANK_SEL, u8 c.PAJ7620_BANK0),
           (u8 c.PAJ7620_REGISTER_BANK_SEL, u8 c.PAJ7620_BANK0)] := by
  have hchk := begin_check c b s
  rw [decide_eq_false hid] at hchk
  have hb : begin c b s =
      ((isPAJ7620UDevice c b
        (selectRegisterBank c b
          (wireBegin b (delayMicroseconds b
            { s with gestureEntryTime := 0, gestureExitTime := 200 } 700))
          Bank_e.BANK0)).1, 0) := by
    simp only [begin, hchk, Bool.not_false, if_true]
  have ht : (begin c b s).1.trace =
        s.trace ++ [BusOp.delayMicroseconds 700, BusOp.wireBegin,
          BusOp.regWrite (u8 c.PAJ7620_REGISTER_BANK_SEL) (u8 c.PAJ7620_BANK0),
          BusOp.regWrite (u8 c.PAJ7620_REGISTER_BANK_SEL) (u8 c.PAJ7620_BANK0),
          BusOp.regRead (u8 c.PAJ7620_ADDR_PART_ID_0) 1,
          BusOp.regRead (u8 c.PAJ7620_ADDR_PART_ID_1) 1] := by
    rw [hb]
    simp [isPAJ7620UDevice_trace, wireBegin, delayMicroseconds]
  refine ⟨by rw [hb], ht, ?_⟩
  rw [ht]
  simp [writesOf, List.filterMap_append]

/-- C4 at a concrete input: the identity registers read back (0x11, 0x12). -/
theorem begin_identity_mismatch_witness :
    (begin sampleHeader (simBoard false) (simDriver [(0, [0x11]), (1, [0x12])])).2 = 0 ∧
      (begin sampleHeader (simBoard false) (simDriver [(0, [0x11]), (1, [0x12])])).1.trace =
        [BusOp.delayMicroseconds 700, BusOp.wireBegin,
          BusOp.regWrite 0xEF 0, BusOp.regWrite 0xEF 0,
          BusOp.regRead 0 1, BusOp.regRead 1 1] ∧
      writesOf (begin sampleHeader (simBoard false)
          (simDriver [(0, [0x11]), (1, [0x12])])).1.trace = [(0xEF, 0), (0xEF, 0)] :=
  begin_identity_mismatch sampleHeader (simBoard false) (simDriver [(0, [0x11]), (1, [0x12])])
    (by decide)

/-- The loop sends the entries from index `i` on to the board, in table order,
as long as the fuel lasts. -/
theorem initLoop_hw (c : Header) (b : Board σ) (fuel i : Nat) (s : Driver σ) :
    (initLoop c b fuel i s).hw =
      boardAfterWords c b s.hw ((c.initRegisterArray.drop i).take fuel) := by
  induction fuel generalizing i s with
  | zero => simp [initLoop, boardAfterWords]
  | succ n ih =>
    by_cases hi : i < c.initRegisterArray.length
    · have hd : c.initRegisterArray.drop i =
          c.initRegisterArray.getD i 0 :: c.initRegisterArray.drop (i + 1) := by
        rw [List.drop_eq_getElem_cons hi, List.getD_eq_getElem _ _ hi]
      have h256 : ∀ x : Nat, u8 (u16 x / 256) = u16 x / 256 := by
        intro x
        have := u16_lt x
        unfold u8
        omega
      have hmod : ∀ x : Nat, u8 (u16 x % 256) = u16 x % 256 := by
        intro x
        unfold u8
        omega
      simp only [initLoop, INIT_REG_ARRAY_SIZE, hi, if_true]
      rw [ih, hd, writeRegister_hw, address_of_word, value_of_word, h256, hmod]
      simp [boardAfterWords]
    · have hd : c.initRegisterArray.drop i = [] :=
        List.drop_eq_nil_of_le (Nat.le_of_not_lt hi)
      simp [initLoop, INIT_REG_ARRAY_SIZE, hi, hd, boardAfterWords]

/-- The loop leaves the timing fields alone. -/
theorem initLoop_times (c : Header) (b : Board σ) (fuel i : Nat) (s : Driver σ) :
    (initLoop c b fuel i s).gestureEntryTime = s.gestureEntryTime ∧
      (initLoop c b fuel i s).gestureExitTime = s.gestureExitTime := by
  induction fuel generalizing i s with
  | zero => simp [initLoop]
  | succ n ih =>
    by_cases hi : i < c.initRegisterArray.length
    · simp only [initLoop, INIT_REG_ARRAY_SIZE, hi, if_true]
      rw [(ih _ _).1, (ih _ _).2]
      simp
    · simp [initLoop, INIT_REG_ARRAY_SIZE, hi]

/-- The board after `initializeDeviceSettings`: the bank-select transmission,
then one transmission per table entry, in table order. -/
theorem initializeDeviceSettings_hw (c : Header) (b : Board σ) (s : Driver σ) :
    (initializeDeviceSettings c b s).hw =
      boardAfterWords c b
        (b.endTransmission s.hw c.PAJ7620_I2C_BUS_ADDR
          [u8 c.PAJ7620_REGISTER_BANK_SEL, u8 c.PAJ7620_BANK0]).1
        c.initRegisterArray := by
  simp [initializeDeviceSettings, initLoop_hw, INIT_REG_ARRAY_SIZE]

/-- A one-byte read that leaves a nonzero byte in a variable initialised to
zero has requested that byte from the board. -/
theorem readRegister_hw_of_ne_zero (c : Header) (b : Board σ) (s : Driver σ) (addr : Nat)
    (h : firstByte (readRegister c b s addr 1 [0]).2.2 ≠ 0) :
    (readRegister c b s addr 1 [0]).1.hw =
      (b.requestFrom (b.endTransmission s.hw c.PAJ7620_I2C_BUS_ADDR [u8 addr]).1
        c.PAJ7620_I2C_BUS_ADDR 1).1 := by
  simp only [readRegister] at h ⊢
  split
  · rename_i h0
    simp [h0, firstByte] at h
  · rfl

/-- The state `isPAJ7620UDevice` leaves is the one its second read leaves. -/
theorem isPAJ7620UDevice_state (c : Header) (b : Board σ) (s : Driver σ) :
    (isPAJ7620UDevice c b s).1 =
      (readRegister c b
        (readRegister c b (selectRegisterBank c b s Bank_e.BANK0)
          c.PAJ7620_ADDR_PART_ID_0 1 [0]).1
        c.PAJ7620_ADDR_PART_ID_1 1 [0]).1 := by
  simp only [isPAJ7620UDevice]
  split <;> rfl

/-- C5: when the two identity registers read back (0x20, 0x76), `begin`
returns 1 and its trace is: the start-up delay, the bus start, two bank-select
writes for Bank0, the two identity reads, a third bank-select write for Bank0,
then for every entry of the configuration table, in table order, one write of
the high byte of the 16-bit word as address and its low byte as value, and
last a bank-select write for Bank0. These writes reach the board: its final
state is the state after the identity reads, followed by the bank-select
transmission, one two-byte transmission per table entry in table order, and
the final bank-select transmission. The timing fields end at 0 and 200. -/
theorem begin_applies_table (c : Header) (b : Board σ) (s : Driver σ)
    (hid : identityReadback c b s = (0x20, 0x76)) :
    (begin c b s).2 = 1 ∧
      (begin c b s).1.trace =
        s.trace ++ [BusOp.delayMicroseconds 700, BusOp.wireBegin,
          BusOp.regWrite (u8 c.PAJ7620_REGISTER_BANK_SEL) (u8 c.PAJ7620_BANK0),
          BusOp.regWrite (u8 c.PAJ7620_REGISTER_BANK_SEL) (u8 c.PAJ7620_BANK0),
          BusOp.regRead (u8 c.PAJ7620_ADDR_PART_ID_0) 1,
          BusOp.regRead (u8 c.PAJ7620_ADDR_PART_ID_1) 1,
          BusOp.regWrite (u8 c.PAJ7620_REGISTER_BANK_SEL) (u8 c.PAJ7620_BANK0)] ++
        c.initRegisterArray.map (fun w => BusOp.regWrite (u16 w / 256) (u16 w % 256)) ++
        [BusOp.regWrite (u8 c.PAJ7620_REGISTER_BANK_SEL) (u8 c.PAJ7620_BANK0)] ∧
      writesOf (begin c b s).1.trace =
        writesOf s.trace ++
          [(u8 c.PAJ7620_REGISTER_BANK_SEL, u8 c.PAJ7620_BANK0),
           (u8 c.PAJ7620_REGISTER_BANK_SEL, u8 c.PAJ7620_BANK0),
           (u8 c.PAJ7620_REGISTER_BANK_SEL, u8 c.PAJ7620_BANK0)] ++
        c.initRegisterArray.map (fun w => (u16 w / 256, u16 w % 256)) ++
        [(u8 c.PAJ7620_REGISTER_BANK_SEL, u8 c.PAJ7620_BANK0)] ∧
      (begin c b s).1.hw =
        (b.endTransmission
          (boardAfterWords c b
            (b.endTransmission (boardAfterIdentityReads c b s.hw) c.PAJ7620_I2C_BUS_ADDR
              [u8 c.PAJ7620_REGISTER_BANK_SEL, u8 c.PAJ7620_BANK0]).1
            c.initRegisterArray)
          c.PAJ7620_I2C_BUS_ADDR
          [u8 c.PAJ7620_REGISTER_BANK_SEL, u8 c.PAJ7620_BANK0]).1 ∧
      (begin c b s).1.gestureEntryTime = 0 ∧
      (begin c b s).1.gestureExitTime = 200 := by
  have hchk := begin_check c b s
  rw [decide_eq_true hid] at hchk
  have hb : begin c b s =
      (selectRegisterBank c b (initializeDeviceSettings c b
        (isPAJ7620UDevice c b
          (selectRegisterBank c b
            (wireBegin b (delayMicroseconds b
              { s with gestureEntryTime := 0, gestureExitTime := 200 } 700))
            Bank_e.BANK0)).1) Bank_e.BANK0, 1) := by
    simp only [begin, hchk, Bool.not_true]
    rfl
  have ht : (begin c b s).1.trace =
        s.trace ++ [BusOp.delayMicroseconds 700, BusOp.wireBegin,
          BusOp.regWrite (u8 c.PAJ7620_REGISTER_BANK_SEL) (u8 c.PAJ7620_BANK0),
          BusOp.regWrite (u8 c.PAJ7620_REGISTER_BANK_SEL) (u8 c.PAJ7620_BANK0),
          BusOp.regRead (u8 c.PAJ7620_ADDR_PART_ID_0) 1,
          BusOp.regRead (u8 c.PAJ7620_ADDR_PART_ID_1) 1,
          BusOp.regWrite (u8 c.PAJ7620_REGISTER_BANK_SEL) (u8 c.PAJ7620_BANK0)] ++
        c.initRegisterArray.map (fun w => BusOp.regWrite (u16 w / 256) (u16 w % 256)) ++
        [BusOp.regWrite (u8 c.PAJ7620_REGISTER_BANK_SEL) (u8 c.PAJ7620_BANK0)] := by
    rw [hb]
    simp [initializeDeviceSettings_trace, isPAJ7620UDevice_trace, wireBegin, delayMicroseconds]
  have hid0 := congrArg Prod.fst hid
  have hid1 := congrArg Prod.snd hid
  simp only [identityReadback] at hid0 hid1
  have hw0 := readRegister_hw_of_ne_zero c b _ c.PAJ7620_ADDR_PART_ID_0
    (by rw [hid0]; decide)
  have hw1 := readRegister_hw_of_ne_zero c b _ c.PAJ7620_ADDR_PART_ID_1
    (by rw [hid1]; decide)
  refine ⟨by rw [hb], ht, ?_, ?_, ?_, ?_⟩
  · rw [ht]
    simp only [writesOf, List.filterMap_append, List.filterMap_map, Function.comp_def,
      List.filterMap_cons, List.filterMap_nil, List.append_assoc, List.cons_append,
      List.nil_append, List.append_cancel_left_eq, List.cons.injEq, true_and,
      List.append_cancel_right_eq]
    induction c.initRegisterArray with
    | nil => rfl
    | cons w ws ih => simp [ih]
  · rw [hb]
    simp only [selectRegisterBank_hw, initializeDeviceSettings_hw, isPAJ7620UDevice_state]
    rw [hw1, hw0]
    simp [boardAfterIdentityReads, wireBegin, delayMicroseconds]
  · rw [hb]
    simp [initializeDeviceSettings, (initLoop_times c b _ _ _).1, isPAJ7620UDevice_state,
      wireBegin, delayMicroseconds]
  · rw [hb]
    simp [initializeDeviceSettings, (initLoop_times c b _ _ _).2, isPAJ7620UDevice_state,
      wireBegin, delayMicroseconds]

/-- C5 at a concrete input: the identity registers read back (0x20, 0x76) and
the table has five entries, the fourth of which selects Bank1. -/
theorem begin_applies_table_witness :
    (begin sampleHeader (simBoard false) (simDriver [(0, [0x20]), (1, [0x76])])).2 = 1 ∧
      (begin sampleHeader (simBoard false) (simDriver [(0, [0x20]), (1, [0x76])])).1.trace =
        [BusOp.delayMicroseconds 700, BusOp.wireBegin,
          BusOp.regWrite 0xEF 0, BusOp.regWrite 0xEF 0,
          BusOp.regRead 0 1, BusOp.regRead 1 1, BusOp.regWrite 0xEF 0,
          BusOp.regWrite 0xEF 0x00, BusOp.regWrite 0x41 0x00, BusOp.regWrite 0x42 0x00,
          BusOp.regWrite 0xEF 0x01, BusOp.regWrite 0x72 0x01,
          BusOp.regWrite 0xEF 0] ∧
      writesOf (begin sampleHeader (simBoard false)
          (simDriver [(0, [0x20]), (1, [0x76])])).1.trace =
        [(0xEF, 0), (0xEF, 0), (0xEF, 0),
          (0xEF, 0x00), (0x41, 0x00), (0x42, 0x00), (0xEF, 0x01), (0x72, 0x01),
          (0xEF, 0)] ∧
      (begin sampleHeader (simBoard false) (simDriver [(0, [0x20]), (1, [0x76])])).1.hw =
        { regs := [(0, []), (1, [])], ptr := 1, bank := 0 } ∧
      (begin sampleHeader (simBoard false)
          (simDriver [(0, [0x20]), (1, [0x76])])).1.gestureEntryTime = 0 ∧
      (begin sampleHeader (simBoard false)
          (simDriver [(0, [0x20]), (1, [0x76])])).1.gestureExitTime = 200 :=
  begin_applies_table sampleHeader (simBoard false) (simDriver [(0, [0x20]), (1, [0x76])])
    (by decide)

/-! ## Wave count, cursor, enable and disable -/

/-- C8: `getWaveCount` returns a value in 0..15; when the read succeeds and the
bus delivers the byte `r`, the value is `r` masked with `0x0F`, that is `r`
modulo 16, whatever the upper four bits of `r`; when the read fails, the value
is 0. -/
theorem getWaveCount_low_nibble (c : Header) (b : Board σ) (s : Driver σ) :
    (getWaveCount c b s).2 ≤ 15 ∧
      (∀ (r : Nat) (rest : List Nat),
        u8 (b.endTransmission s.hw c.PAJ7620_I2C_BUS_ADDR [u8 c.PAJ7620_ADDR_WAVE_COUNT]).2 = 0 →
        (b.requestFrom
            (b.endTransmission s.hw c.PAJ7620_I2C_BUS_ADDR [u8 c.PAJ7620_ADDR_WAVE_COUNT]).1
            c.PAJ7620_I2C_BUS_ADDR 1).2 = r :: rest →
        (getWaveCount c b s).2 = u8 r &&& 0x0F ∧ (getWaveCount c b s).2 = r % 16) ∧
      (u8 (b.endTransmission s.hw c.PAJ7620_I2C_BUS_ADDR [u8 c.PAJ7620_ADDR_WAVE_COUNT]).2 ≠ 0 →
        (getWaveCount c b s).2 = 0) := by
  have hmask : ∀ x : Nat, x &&& 0x0F = x % 16 := fun x =>
    Nat.and_pow_two_sub_one_eq_mod x 4
  refine ⟨?_, ?_, ?_⟩
  · simp only [getWaveCount, hmask]
    exact Nat.le_of_lt_succ (Nat.mod_lt _ (by decide))
  · intro r rest hst hrx
    have hv : (getWaveCount c b s).2 = u8 r &&& 0x0F := by
      simp [getWaveCount, readRegister, hst, hrx, firstByte]
    refine ⟨hv, ?_⟩
    rw [hv, hmask]
    unfold u8
    omega
  · intro hst
    simp [getWaveCount, readRegister, hst, firstByte]

/-- C8 at a concrete input: the wave-count register holds `0xF7`; the count
is 7. -/
theorem getWaveCount_low_nibble_witness :
    (getWaveCount sampleHeader (simBoard false) (simDriver [(0xB7, [0xF7])])).2 = 7 :=
  ((getWaveCount_low_nibble sampleHeader (simBoard false)
    (simDriver [(0xB7, [0xF7])])).2.1 0xF7 [] rfl rfl).2

/-- The value `getCursorX` returns: the masked high byte OR-ed with the low
byte; the shift has no effect on it. -/
theorem getCursorX_value (c : Header) (b : Board σ) (s : Driver σ) :
    (getCursorX c b s).2 =
      (firstByte (readRegister c b (readRegister c b s c.PAJ7620_ADDR_CURSOR_X_LOW 1 [0]).1
          c.PAJ7620_ADDR_CURSOR_X_HIGH 1 [0]).2.2 &&& 0x0F) |||
        firstByte (readRegister c b s c.PAJ7620_ADDR_CURSOR_X_LOW 1 [0]).2.2 := by
  simp [getCursorX]

/-- The value `getCursorY` returns: the masked high byte OR-ed with the low
byte; the shift has no effect on it. -/
theorem getCursorY_value (c : Header) (b : Board σ) (s : Driver σ) :
    (getCursorY c b s).2 =
      (firstByte (readRegister c b (readRegister c b s c.PAJ7620_ADDR_CURSOR_Y_LOW 1 [0]).1
          c.PAJ7620_ADDR_CURSOR_Y_HIGH 1 [0]).2.2 &&& 0x0F) |||
        firstByte (readRegister c b s c.PAJ7620_ADDR_CURSOR_Y_LOW 1 [0]).2.2 := by
  simp [getCursorY]

/-- The value of a cursor read never exceeds 255, so it cannot cover the
12-bit range. -/
theorem getCursorX_le (c : Header) (b : Board σ) (s : Driver σ) :
    (getCursorX c b s).2 < 256 := by
  rw [getCursorX_value]
  have h0 := readRegister_one_lt c b s c.PAJ7620_ADDR_CURSOR_X_LOW
  have h1 : firstByte (readRegister c b (readRegister c b s c.PAJ7620_ADDR_CURSOR_X_LOW 1 [0]).1
      c.PAJ7620_ADDR_CURSOR_X_HIGH 1 [0]).2.2 &&& 0x0F < 2 ^ 8 :=
    Nat.lt_of_le_of_lt Nat.and_le_right (by decide)
  exact Nat.or_lt_two_pow h1 h0

/-- C9 on the code: with low byte `0x00` and high byte `0x01` in the cursor
registers, `getCursorX` and `getCursorY` return 1, not the 12-bit value
`(0x01 mod 16) * 256 + 0x00 = 256`. -/
theorem getCursor_shift_dropped :
    (getCursorX sampleHeader (simBoard false) (simDriver [(0x3B, [0x00]), (0x3C, [0x01])])).2 = 1 ∧
      (getCursorY sampleHeader (simBoard false)
        (simDriver [(0x3D, [0x00]), (0x3E, [0x01])])).2 = 1 ∧
      (0x01 % 16) * 256 + 0x00 = 256 := by
  decide

/-- C10: for every board and every state, `enable` and `disable` each add
exactly three register writes to the trace, in this order: the bank-select
write for Bank1, one write to the operation-enable register (the enable value
for `enable`, the disable value for `disable`), and the bank-select write for
Bank0; the board ends in the state these three transmissions leave, in that
order. Hence, for every observation `bankOf` of the selected bank such that
the bank-select transmission for Bank0 leaves Bank0 selected, the selected
bank after either call is Bank0, whatever the state before the call. -/
theorem enable_disable_writes (c : Header) (b : Board σ) (s : Driver σ) :
    (enable c b s).trace =
        s.trace ++ [BusOp.regWrite (u8 c.PAJ7620_REGISTER_BANK_SEL) (u8 c.PAJ7620_BANK1),
          BusOp.regWrite (u8 c.PAJ7620_ADDR_OPERATION_ENABLE) (u8 c.PAJ7620_ENABLE),
          BusOp.regWrite (u8 c.PAJ7620_REGISTER_BANK_SEL) (u8 c.PAJ7620_BANK0)] ∧
      (disable c b s).trace =
        s.trace ++ [BusOp.regWrite (u8 c.PAJ7620_REGISTER_BANK_SEL) (u8 c.PAJ7620_BANK1),
          BusOp.regWrite (u8 c.PAJ7620_ADDR_OPERATION_ENABLE) (u8 c.PAJ7620_DISABLE),
          BusOp.regWrite (u8 c.PAJ7620_REGISTER_BANK_SEL) (u8 c.PAJ7620_BANK0)] ∧
      (enable c b s).hw =
        (b.endTransmission
          (b.endTransmission
            (b.endTransmission s.hw c.PAJ7620_I2C_BUS_ADDR
              [u8 c.PAJ7620_REGISTER_BANK_SEL, u8 c.PAJ7620_BANK1]).1
            c.PAJ7620_I2C_BUS_ADDR
            [u8 c.PAJ7620_ADDR_OPERATION_ENABLE, u8 c.PAJ7620_ENABLE]).1
          c.PAJ7620_I2C_BUS_ADDR
          [u8 c.PAJ7620_REGISTER_BANK_SEL, u8 c.PAJ7620_BANK0]).1 ∧
      (disable c b s).hw =
        (b.endTransmission
          (b.endTransmission
            (b.endTransmission s.hw c.PAJ7620_I2C_BUS_ADDR
              [u8 c.PAJ7620_REGISTER_BANK_SEL, u8 c.PAJ7620_BANK1]).1
            c.PAJ7620_I2C_BUS_ADDR
            [u8 c.PAJ7620_ADDR_OPERATION_ENABLE, u8 c.PAJ7620_DISABLE]).1
          c.PAJ7620_I2C_BUS_ADDR
          [u8 c.PAJ7620_REGISTER_BANK_SEL, u8 c.PAJ7620_BANK0]).1 ∧
      (enable c b s).gestureEntryTime = s.gestureEntryTime ∧
      (enable c b s).gestureExitTime = s.gestureExitTime ∧
      (disable c b s).gestureEntryTime = s.gestureEntryTime ∧
      (disable c b s).gestureExitTime = s.gestureExitTime ∧
      ∀ bankOf : σ → Nat,
        (∀ h : σ, bankOf (b.endTransmission h c.PAJ7620_I2C_BUS_ADDR
          [u8 c.PAJ7620_REGISTER_BANK_SEL, u8 c.PAJ7620_BANK0]).1 = u8 c.PAJ7620_BANK0) →
        bankOf (enable c b s).hw = u8 c.PAJ7620_BANK0 ∧
          bankOf (disable c b s).hw = u8 c.PAJ7620_BANK0 := by
  refine ⟨?_, ?_, ?_, ?_, ?_, ?_, ?_, ?_, ?_⟩
  · simp [enable]
  · simp [disable]
  · simp [enable]
  · simp [disable]
  · simp [enable]
  · simp [enable]
  · simp [disable]
  · simp [disable]
  · intro bankOf hacc
    constructor
    · simp only [enable, selectRegisterBank_hw]
      exact hacc _
    · simp only [disable, selectRegisterBank_hw]
      exact hacc _

/-- The simulated sensor has Bank0 selected after every bank-select
transmission for Bank0. -/
theorem simBoard_accepts_bank (h : Sim) :
    ((simBoard false).endTransmission h sampleHeader.PAJ7620_I2C_BUS_ADDR
      [u8 sampleHeader.PAJ7620_REGISTER_BANK_SEL, u8 sampleHeader.PAJ7620_BANK0]).1.bank =
        u8 sampleHeader.PAJ7620_BANK0 := by
  simp [simBoard, sampleHeader, u8]

/-- C10 at a concrete input: the simulated sensor, Bank1 selected before the
calls. -/
theorem enable_disable_writes_witness :
    (enable sampleHeader (simBoard false) (simDriver [])).trace =
        [BusOp.regWrite 0xEF 1, BusOp.regWrite 0x72 1, BusOp.regWrite 0xEF 0] ∧
      (disable sampleHeader (simBoard false) (simDriver [])).trace =
        [BusOp.regWrite 0xEF 1, BusOp.regWrite 0x72 0, BusOp.regWrite 0xEF 0] ∧
      (enable sampleHeader (simBoard false) (simDriver [])).hw.bank = 0 ∧
      (disable sampleHeader (simBoard false) (simDriver [])).hw.bank = 0 :=
  ⟨(enable_disable_writes sampleHeader (simBoard false) (simDriver [])).1,
    (enable_disable_writes sampleHeader (simBoard false) (simDriver [])).2.1,
    ((enable_disable_writes sampleHeader (simBoard false) (simDriver [])).2.2.2.2.2.2.2.2
      Sim.bank simBoard_accepts_bank).1,
    ((enable_disable_writes sampleHeader (simBoard false) (simDriver [])).2.2.2.2.2.2.2.2
      Sim.bank simBoard_accepts_bank).2⟩

/-- On a board that rejects every transmission `enable` still issues its three
writes, in the same order, and the selected bank stays as it was. -/
theorem enable_on_failing_bus :
    (enable sampleHeader (simBoard true) (simDriver [])).trace =
        [BusOp.regWrite 0xEF 1, BusOp.regWrite 0x72 1, BusOp.regWrite 0xEF 0] ∧
      (enable sampleHeader (simBoard true) (simDriver [])).hw.bank = 1 := by
  decide

end PAJ7620
